import Mathlib

/-!
Verification development for the YANG value-verification engine of
OpenWrt_RESTCONF (`src/yang-verify.c`).

The C source is embedded shallowly: json-c values become an inductive
`Json`, the engine's functions become Lean functions with the same names,
and the external collaborators (schema type lookup, JSON parsing of a
fetched type definition, POSIX regex execution) are grouped into an
explicit environment `Env`.  The possibly unbounded typedef-resolution
recursion is made total with an explicit `fuel` argument; a result of
`none` means the fuel ran out (the C source has no such guard), while
`some r` is the C function's return value.

Machine integers are modelled as `Int`/`Nat` with the exact conversions
the C performs on an LP64 platform (the project targets Linux/OpenWrt):
`long`/`intmax_t` are 64-bit, `int` is 32-bit, and out-of-range
integer-to-integer conversions wrap modulo the target width (the
gcc/musl behavior for the implementation-defined signed case).
-/

namespace YangVerify

/-- Kinds of json-c values (`json_type`). -/
inductive json_type where
  | json_type_null
  | json_type_boolean
  | json_type_int
  | json_type_string
  | json_type_array
  | json_type_object
deriving DecidableEq

/-- Modelled from the spec (§6, JSON value model — the json-c tree lives
outside `src/`): a JSON value is null, boolean, number, string, array or
object.  Numbers are modelled as integers; the claims under study only
exercise integral numbers. -/
inductive Json where
  | null
  | bool (b : Bool)
  | int (n : Int)
  | str (s : String)
  | arr (elems : List Json)
  | obj (fields : List (String × Json))

/-- `json_object_get_type`: the kind of a value. -/
def json_object_get_type : Json → json_type
  | Json.null => json_type.json_type_null
  | Json.bool _ => json_type.json_type_boolean
  | Json.int _ => json_type.json_type_int
  | Json.str _ => json_type.json_type_string
  | Json.arr _ => json_type.json_type_array
  | Json.obj _ => json_type.json_type_object

/-- Modelled from the spec (§6): the "get string form" operation of the
JSON value model (`json_object_get_string`), which fails when the value
has no canonical scalar string representation.  Booleans and numbers are
coerced to their decimal/keyword spelling; a string is returned as is;
null and composite values have no scalar string form here. -/
def json_object_get_string : Json → Option String
  | Json.null => none
  | Json.bool b => some (if b then "true" else "false")
  | Json.int n => some (toString n)
  | Json.str s => some s
  | Json.arr _ => none
  | Json.obj _ => none

/-- First binding of a key in an object's field list. -/
def json_obj_lookup : List (String × Json) → String → Option Json
  | [], _ => none
  | (k, v) :: rest, key => if k = key then some v else json_obj_lookup rest key

/-- `json_object_object_get_ex`: fetch a field of an object; `none` when
the value is not an object or the key is absent. -/
def json_object_object_get_ex (j : Json) (key : String) : Option Json :=
  match j with
  | Json.obj fields => json_obj_lookup fields key
  | _ => none

/-- Modelled from the spec (§6, schema node accessor — `restconf-json.h`
is not under `src/`): read a named field of a node and return its string
form, `none` when the field is absent or has no string form. -/
def json_get_string (j : Json) (key : String) : Option String :=
  (json_object_object_get_ex j key).bind json_object_get_string

/-- Modelled from the spec (§4.9 — json-c lives outside `src/`): the
boolean reading of a field used by the mandatory check; only a boolean
`true` reads as true, absent or malformed fields default to false. -/
def json_object_get_boolean : Json → Bool
  | Json.bool b => b
  | _ => false

/-- Modelled from the spec (§4.9, schema node accessor): the field key
under which a schema node declares its kind (leaf/leaf-list/container/…);
the `YANG_TYPE` constant of the missing `yang-util.h`. -/
def YANG_TYPE : String := "type"

/-- Modelled from the spec (§3, schema type descriptor): the field key
under which a schema node (or a structured type descriptor) declares its
leaf type; the `YANG_LEAF_TYPE` constant of the missing `yang-util.h`. -/
def YANG_LEAF_TYPE : String := "leaf-type"

/-- Modelled from the spec (§4.9): the field key of YANG's `mandatory`
flag; the `YANG_MANDATORY` constant of the missing `yang-util.h`. -/
def YANG_MANDATORY : String := "mandatory"

/-- Modelled from the spec (§3, §7 — `restconf.h` is not under `src/`):
the verification outcome.  `RE_OK` is Ok, `INVALID_TYPE` is TypeMismatch,
`YANG_SCHEMA_ERROR` is SchemaMalformed, `IDENTICAL_KEYS` is the leaf-list
uniqueness failure. -/
inductive error where
  | RE_OK
  | INVALID_TYPE
  | YANG_SCHEMA_ERROR
  | IDENTICAL_KEYS
deriving DecidableEq

/-- The closed enumeration of primitive type categories (§3); the
`yang_type` enumeration of the missing `yang-util.h`. -/
inductive yang_type where
  | BOOLEAN
  | EMPTY
  | IDENTITY_REF
  | INT_8
  | INT_16
  | INT_32
  | INT_64
  | UINT_8
  | UINT_16
  | UINT_32
  | UINT_64
  | LEAF_REF
  | DECIMAL_64
  | ENUMERATION
  | BITS
  | BINARY
  | STRING
  | INSTANCE_IDENTIFIER
  | UNION
  | UNRECOGNIZED
deriving DecidableEq

/-- Modelled from the spec (§4.1 — `str_to_yang_type` of `yang-util.c`
is not under `src/`): a pure total lookup over the fixed table of YANG
built-in type names; any unmatched name is `UNRECOGNIZED`. -/
def str_to_yang_type (s : String) : yang_type :=
  match s with
  | "boolean" => yang_type.BOOLEAN
  | "empty" => yang_type.EMPTY
  | "identityref" => yang_type.IDENTITY_REF
  | "int8" => yang_type.INT_8
  | "int16" => yang_type.INT_16
  | "int32" => yang_type.INT_32
  | "int64" => yang_type.INT_64
  | "uint8" => yang_type.UINT_8
  | "uint16" => yang_type.UINT_16
  | "uint32" => yang_type.UINT_32
  | "uint64" => yang_type.UINT_64
  | "leafref" => yang_type.LEAF_REF
  | "decimal64" => yang_type.DECIMAL_64
  | "enumeration" => yang_type.ENUMERATION
  | "bits" => yang_type.BITS
  | "binary" => yang_type.BINARY
  | "string" => yang_type.STRING
  | "instance-identifier" => yang_type.INSTANCE_IDENTIFIER
  | "union" => yang_type.UNION
  | _ => yang_type.UNRECOGNIZED

/-- Modelled from the spec (§4.9 — `yang_is_leaf` of `yang-util.c` is
not under `src/`): whether a node-kind string denotes a leaf or a
leaf-list. -/
def yang_is_leaf (type_string : String) : Bool :=
  type_string == "leaf" || type_string == "leaf-list"

/-- The whitespace characters skipped by C `strtol`. -/
def c_isspace (c : Char) : Bool :=
  c = ' ' || c = '\t' || c = '\n' || c = '\x0b' || c = '\x0c' || c = '\r'

/-- C `strtol(s, NULL, 10)` on an LP64 platform: skip leading
whitespace, read an optional sign and then a run of decimal digits (an
empty run yields 0), and clamp the result to the 64-bit `long` range.
Trailing non-digit characters are ignored. -/
def strtol (s : String) : Int :=
  let cs := s.data.dropWhile c_isspace
  let sign : Int := match cs with
    | '-' :: _ => -1
    | _ => 1
  let digits : List Char := match cs with
    | '-' :: t => t.takeWhile Char.isDigit
    | '+' :: t => t.takeWhile Char.isDigit
    | _ => cs.takeWhile Char.isDigit
  let magnitude : Nat := digits.foldl (fun a c => 10 * a + (c.toNat - 48)) 0
  let v : Int := sign * (magnitude : Int)
  if v < -(2 ^ 63) then -(2 ^ 63) else if v > 2 ^ 63 - 1 then 2 ^ 63 - 1 else v

/-- C `strtoimax(s, NULL, 10)`: on LP64, `intmax_t` coincides with
`long`, so the function agrees with `strtol`. -/
def strtoimax (s : String) : Int :=
  strtol s

/-- The implementation-defined C narrowing conversion from a 64-bit
integer to `int` (32-bit): wraparound modulo `2 ^ 32`, as gcc/musl
define it. -/
def int_of_intmax (x : Int) : Int :=
  (x + 2 ^ 31).emod (2 ^ 32) - 2 ^ 31

/-- The C conversion from `long` to `unsigned long` (64-bit): reduction
modulo `2 ^ 64`, as the C standard defines it. -/
def ulong_of_long (x : Int) : Nat :=
  (x.emod (2 ^ 64)).toNat

/-- The external collaborators of the engine (§6): the schema type
lookup (`yang_for_type`), the JSON parser applied to a fetched type
definition (`json_tokener_parse_verbose`), and POSIX regex execution.
`regexec_match r v` is true exactly when `regcomp` succeeds on `r` and
`regexec` reports a match of `r` somewhere in `v`. -/
structure Env where
  yang_for_type : String → Option String
  json_tokener_parse_verbose : String → Option Json
  regexec_match : String → String → Bool

/-- `regex_verify_value` (`yang-verify.c` lines 151-162): 1 when the
pattern fails to compile or does not match, 0 on a match.  A pattern
with no string form (the C would pass a null pointer) counts as a
failure. -/
def regex_verify_value (env : Env) (regex : Option String) (value : String) : Nat :=
  match regex with
  | none => 1
  | some r => if env.regexec_match r value then 0 else 1

/-- The `other_check` enumeration local to `yang_verify_value_type`. -/
inductive other_check where
  | NONE
  | RANGE
  | PATTERN
deriving DecidableEq

/-- How the `switch (converted)` of `yang_verify_value_type` (lines
207-277) exits: an immediate `return 1`, a fall-through to the
refinement section with `verify_type` set, or the `default:` delegation
to `verify_value_from_imported`. -/
inductive switch_out where
  | ret1
  | fall (vt : other_check)
  | imported
deriving DecidableEq

/-- The `switch (converted)` of `yang_verify_value_type` (lines
207-277), one arm per category.  Each fixed-width integer case performs
the C's narrowing assignment and bound test exactly as written; for
`INT_32` the test on an `int` variable and for `UINT_64` the test on an
`unsigned long` variable are consequently vacuous, as in the source. -/
def switch_check (converted : yang_type) (value : String) : switch_out :=
  match converted with
  | yang_type.BOOLEAN =>
      if value ≠ "true" ∧ value ≠ "false" ∧ value ≠ "1" ∧ value ≠ "0" then
        switch_out.ret1
      else switch_out.fall other_check.NONE
  | yang_type.EMPTY => switch_out.fall other_check.NONE
  | yang_type.IDENTITY_REF => switch_out.fall other_check.NONE
  | yang_type.INT_8 =>
      let integer : Int := int_of_intmax (strtoimax value)
      if integer < -128 ∨ integer > 127 then switch_out.ret1
      else switch_out.fall other_check.RANGE
  | yang_type.INT_16 =>
      let integer : Int := int_of_intmax (strtoimax value)
      if integer < -32768 ∨ integer > 32767 then switch_out.ret1
      else switch_out.fall other_check.RANGE
  | yang_type.INT_32 =>
      let integer : Int := int_of_intmax (strtoimax value)
      if integer < -2147483648 ∨ integer > 2147483647 then switch_out.ret1
      else switch_out.fall other_check.RANGE
  | yang_type.UINT_8 =>
      let integer : Int := int_of_intmax (strtoimax value)
      if integer < 0 ∨ integer > 255 then switch_out.ret1
      else switch_out.fall other_check.RANGE
  | yang_type.UINT_16 =>
      let integer : Int := int_of_intmax (strtoimax value)
      if integer < 0 ∨ integer > 65535 then switch_out.ret1
      else switch_out.fall other_check.RANGE
  | yang_type.UINT_32 =>
      let integer : Int := int_of_intmax (strtoimax value)
      if integer < 0 then switch_out.ret1
      else switch_out.fall other_check.RANGE
  | yang_type.LEAF_REF => switch_out.fall other_check.NONE
  | yang_type.UINT_64 =>
      let integer : Nat := ulong_of_long (strtol value)
      if integer < 0 ∨ integer > 18446744073709551615 then switch_out.ret1
      else switch_out.fall other_check.RANGE
  | yang_type.INT_64 => switch_out.fall other_check.RANGE
  | yang_type.DECIMAL_64 => switch_out.fall other_check.NONE
  | yang_type.ENUMERATION => switch_out.fall other_check.NONE
  | yang_type.BITS => switch_out.fall other_check.NONE
  | yang_type.INSTANCE_IDENTIFIER => switch_out.fall other_check.NONE
  | yang_type.STRING => switch_out.fall other_check.PATTERN
  | yang_type.UNION => switch_out.fall other_check.NONE
  | yang_type.BINARY => switch_out.imported
  | yang_type.UNRECOGNIZED => switch_out.imported

/-- The `json_array_forloop` over alternative patterns (lines 312-318):
the loop breaks at the first pattern that matches, and on every exit
path — break or normal termination — control reaches the unconditional
`return 1` that follows the loop, so the computed value is 1 in both
branches. -/
def pattern_loop (env : Env) (value : String) : List Json → Nat
  | [] => 1
  | p :: rest =>
      if regex_verify_value env (json_object_get_string p) value = 0 then 1
      else pattern_loop env value rest

/-- `yang_verify_value_type` (lines 196-326).  Returns `some 0` when the
value verifies, `some 1` when it does not, and `none` when `fuel` is
exhausted by typedef-chain recursion (the C source does not bound that
recursion).  The `default:` arm of the switch inlines the body of
`verify_value_from_imported` (lines 170-188), which the C reaches via a
forward declaration; a type name with no string form cannot be looked up
and fails. -/
def yang_verify_value_type (env : Env) : Nat → Json → String → Option Nat
  | 0, _, _ => none
  | fuel + 1, type, value =>
      let leaf_type : Option String :=
        if json_object_get_type type = json_type.json_type_object then
          json_get_string type YANG_LEAF_TYPE
        else
          json_object_get_string type
      let converted : yang_type :=
        match leaf_type with
        | none => yang_type.UNRECOGNIZED
        | some s => str_to_yang_type s
      match switch_check converted value with
      | switch_out.ret1 => some 1
      | switch_out.imported =>
          match leaf_type with
          | none => some 1
          | some t =>
              match env.yang_for_type t with
              | none => some 1
              | some typedefinition =>
                  match env.json_tokener_parse_verbose typedefinition with
                  | none => some 1
                  | some type_object =>
                      match yang_verify_value_type env fuel type_object value with
                      | none => none
                      | some wrong_format =>
                          if wrong_format ≠ 0 then some 1 else some 0
      | switch_out.fall verify_type =>
          -- the C's `is_object` flag, tested here, records the same
          -- condition that selected how `leaf_type` was read above
          if json_object_get_type type = json_type.json_type_object then
            match verify_type with
            | other_check.NONE => some 0
            | other_check.RANGE =>
                match json_get_string type "from", json_get_string type "to" with
                | some from_string, some to_string =>
                    let lower : Int := strtol from_string
                    let upper : Int := strtol to_string
                    let integer : Int := strtol value
                    if integer < lower ∨ integer > upper then some 1 else some 0
                | _, _ => some 0
            | other_check.PATTERN =>
                match json_object_object_get_ex type "pattern" with
                | some (Json.str pattern) =>
                    if regex_verify_value env (some pattern) value ≠ 0 then some 1
                    else some 0
                | some (Json.arr patterns) =>
                    if patterns.length = 0 then some 0
                    else some (pattern_loop env value patterns)
                | _ => some 1
          else some 0

/-- `verify_value_from_imported` (lines 170-188): look the type name up,
parse the fetched definition, and re-enter `yang_verify_value_type`
against it; any failure along the way yields 1. -/
def verify_value_from_imported (env : Env) (fuel : Nat) (type : Option String)
    (value : String) : Option Nat :=
  match type with
  | none => some 1
  | some t =>
      match env.yang_for_type t with
      | none => some 1
      | some typedefinition =>
          match env.json_tokener_parse_verbose typedefinition with
          | none => some 1
          | some type_object =>
              match yang_verify_value_type env fuel type_object value with
              | none => none
              | some wrong_format =>
                  if wrong_format ≠ 0 then some 1 else some 0

/-- `yang_verify_leaf` (lines 15-36). -/
def yang_verify_leaf (env : Env) (fuel : Nat) (leaf : Json) (yang : Json) :
    Option error :=
  let value_type := json_object_get_type leaf
  if value_type = json_type.json_type_object ∨ value_type = json_type.json_type_array then
    some error.INVALID_TYPE
  else
    match json_object_object_get_ex yang YANG_LEAF_TYPE with
    | none => some error.YANG_SCHEMA_ERROR
    | some type =>
        match json_object_get_string leaf with
        | none => some error.INVALID_TYPE
        | some value =>
            match yang_verify_value_type env fuel type value with
            | none => none
            | some r => if r ≠ 0 then some error.INVALID_TYPE else some error.RE_OK

/-- The inner `for (compare = i + 1; ...)` loop of `yang_verify_leaf_list`
(lines 65-76): scan the elements after the current one; an element with
no string form fails with `INVALID_TYPE`, an exact string duplicate with
`IDENTICAL_KEYS`; `none` means the scan found nothing. -/
def leaf_list_compare (value : String) : List Json → Option error
  | [] => none
  | compare_item :: rest =>
      match json_object_get_string compare_item with
      | none => some error.INVALID_TYPE
      | some compare_value =>
          if value = compare_value then some error.IDENTICAL_KEYS
          else leaf_list_compare value rest

/-- The outer `for (i = 0; ...)` loop of `yang_verify_leaf_list` (lines
56-77): each element is coerced and type-checked, and immediately
afterwards compared against all later elements; the first failure of
either kind returns. -/
def leaf_list_elems (env : Env) (fuel : Nat) (type : Json) : List Json → Option error
  | [] => some error.RE_OK
  | item :: rest =>
      match json_object_get_string item with
      | none => some error.INVALID_TYPE
      | some value =>
          match yang_verify_value_type env fuel type value with
          | none => none
          | some r =>
              if r ≠ 0 then some error.INVALID_TYPE
              else
                match leaf_list_compare value rest with
                | some e => some e
                | none => leaf_list_elems env fuel type rest

/-- `yang_verify_leaf_list` (lines 44-79). -/
def yang_verify_leaf_list (env : Env) (fuel : Nat) (list : Json) (yang : Json) :
    Option error :=
  match list with
  | Json.arr elems =>
      (match json_object_object_get_ex yang YANG_LEAF_TYPE with
       | none => some error.YANG_SCHEMA_ERROR
       | some type => leaf_list_elems env fuel type elems)
  | _ => some error.INVALID_TYPE

/-- `yang_verify_json_type` (lines 87-125): the coarse compatibility
check between a type category and a JSON kind; 1 on incompatibility. -/
def yang_verify_json_type (type : yang_type) (val_type : json_type) : Nat :=
  match type with
  | yang_type.BOOLEAN =>
      if val_type ≠ json_type.json_type_boolean then 1 else 0
  | yang_type.EMPTY =>
      if val_type ≠ json_type.json_type_null then 1 else 0
  | yang_type.IDENTITY_REF => 0
  | yang_type.INT_8 | yang_type.INT_16 | yang_type.INT_32
  | yang_type.UINT_8 | yang_type.UINT_16 | yang_type.UINT_32 =>
      if val_type ≠ json_type.json_type_int then 1 else 0
  | yang_type.LEAF_REF => 0
  | yang_type.UINT_64 | yang_type.INT_64 =>
      if val_type ≠ json_type.json_type_string ∧ val_type ≠ json_type.json_type_int then 1
      else 0
  | yang_type.DECIMAL_64 | yang_type.ENUMERATION | yang_type.BITS
  | yang_type.BINARY | yang_type.STRING | yang_type.INSTANCE_IDENTIFIER =>
      if val_type ≠ json_type.json_type_string then 1 else 0
  | yang_type.UNION => 0
  | yang_type.UNRECOGNIZED => 0

/-- `yang_mandatory` (lines 132-143): the mandatory flag is consulted
when the kind field is absent or its string denotes a leaf/leaf-list,
and the result is 1 exactly when that flag is present and reads true. -/
def yang_mandatory (yang : Json) : Nat :=
  let type_string := json_get_string yang YANG_TYPE
  let eligible : Bool :=
    match type_string with
    | none => true
    | some s => yang_is_leaf s
  if eligible then
    match json_object_object_get_ex yang YANG_MANDATORY with
    | some mandatory => if json_object_get_boolean mandatory then 1 else 0
    | none => 0
  else 0

/-- An environment whose lookup and parse collaborators fail and whose
regex collaborator never matches. -/
def env0 : Env :=
  ⟨fun _ => none, fun _ => none, fun _ _ => false⟩

/-- An environment whose regex collaborator matches every pattern
against every value; lookup and parse fail. -/
def envAll : Env :=
  ⟨fun _ => none, fun _ => none, fun _ _ => true⟩

/-- The categories whose switch arm sets `verify_type = RANGE` (or exits
with `return 1` from that arm): the integer family. -/
def range_checkable (c : yang_type) : Bool :=
  match c with
  | yang_type.INT_8 | yang_type.INT_16 | yang_type.INT_32 | yang_type.INT_64
  | yang_type.UINT_8 | yang_type.UINT_16 | yang_type.UINT_32 | yang_type.UINT_64 => true
  | _ => false

/-- The scan over alternative patterns computes 1 on every path: both
the break-on-match exit and the normal exit reach the `return 1` after
the loop. -/
theorem pattern_loop_eq_one (env : Env) (value : String) :
    ∀ ps : List Json, pattern_loop env value ps = 1 := by
  intro ps
  induction ps with
  | nil => rfl
  | cons p rest ih =>
      unfold pattern_loop
      split
      · rfl
      · exact ih

/-- For an integer-family category the switch either returns 1 from the
width check or falls through with `verify_type = RANGE`. -/
theorem switch_check_of_range_checkable (c : yang_type) (v : String)
    (h : range_checkable c = true) :
    switch_check c v = switch_out.ret1 ∨
      switch_check c v = switch_out.fall other_check.RANGE := by
  cases c <;> simp only [range_checkable] at h <;>
    first
      | exact Bool.noConfusion h
      | exact Or.inr rfl
      | (simp only [switch_check]
         split
         · exact Or.inl rfl
         · exact Or.inr rfl)

/-- A bare (string-form) type descriptor is decided by the switch alone:
`is_object` is false, so no range or pattern refinement runs and every
fall-through exits with 0. -/
theorem vvt_bare_str (env : Env) (fuel : Nat) (t v : String) :
    yang_verify_value_type env (fuel + 1) (Json.str t) v =
      match switch_check (str_to_yang_type t) v with
      | switch_out.ret1 => some 1
      | switch_out.imported => verify_value_from_imported env fuel (some t) v
      | switch_out.fall _ => some 0 := by
  simp [yang_verify_value_type, json_object_get_type, json_object_get_string,
    verify_value_from_imported]

/-- On a structured descriptor carrying both bounds, a switch arm that
falls through with `RANGE` hands the verdict to the `[from, to]`
comparison of the three `strtol`-parsed integers. -/
theorem vvt_range_descriptor (env : Env) (fuel : Nat) (t fs ts v : String)
    (hc : switch_check (str_to_yang_type t) v = switch_out.fall other_check.RANGE) :
    yang_verify_value_type env (fuel + 1)
      (Json.obj [(YANG_LEAF_TYPE, Json.str t), ("from", Json.str fs), ("to", Json.str ts)]) v
      = some (if strtol v < strtol fs ∨ strtol v > strtol ts then 1 else 0) := by
  simp [yang_verify_value_type, json_object_get_type, json_get_string,
    json_object_object_get_ex, json_obj_lookup, YANG_LEAF_TYPE, json_object_get_string, hc]
  split <;> rfl

/-- On the same structured descriptor, a switch arm that returns 1 (the
fixed-width check failed) decides the outcome before any refinement. -/
theorem vvt_range_descriptor_ret1 (env : Env) (fuel : Nat) (t fs ts v : String)
    (hc : switch_check (str_to_yang_type t) v = switch_out.ret1) :
    yang_verify_value_type env (fuel + 1)
      (Json.obj [(YANG_LEAF_TYPE, Json.str t), ("from", Json.str fs), ("to", Json.str ts)]) v
      = some 1 := by
  simp [yang_verify_value_type, json_object_get_type, json_get_string,
    json_object_object_get_ex, json_obj_lookup, YANG_LEAF_TYPE, json_object_get_string, hc]

/-- A structured integer-type descriptor carrying only a `from` bound
behaves exactly like the bare type name: the refinement is skipped. -/
theorem vvt_from_only (env : Env) (fuel : Nat) (t fs v : String)
    (hrc : range_checkable (str_to_yang_type t) = true) :
    yang_verify_value_type env (fuel + 1)
      (Json.obj [(YANG_LEAF_TYPE, Json.str t), ("from", Json.str fs)]) v
      = yang_verify_value_type env (fuel + 1) (Json.str t) v := by
  rcases switch_check_of_range_checkable _ v hrc with hc | hc <;>
    rw [vvt_bare_str, hc] <;>
    simp [yang_verify_value_type, json_object_get_type, json_get_string,
      json_object_object_get_ex, json_obj_lookup, YANG_LEAF_TYPE, json_object_get_string, hc]

/-- A structured integer-type descriptor carrying only a `to` bound
behaves exactly like the bare type name: the refinement is skipped. -/
theorem vvt_to_only (env : Env) (fuel : Nat) (t ts v : String)
    (hrc : range_checkable (str_to_yang_type t) = true) :
    yang_verify_value_type env (fuel + 1)
      (Json.obj [(YANG_LEAF_TYPE, Json.str t), ("to", Json.str ts)]) v
      = yang_verify_value_type env (fuel + 1) (Json.str t) v := by
  rcases switch_check_of_range_checkable _ v hrc with hc | hc <;>
    rw [vvt_bare_str, hc] <;>
    simp [yang_verify_value_type, json_object_get_type, json_get_string,
      json_object_object_get_ex, json_obj_lookup, YANG_LEAF_TYPE, json_object_get_string, hc]

/-- When the base-10 parse of the value yields 0, every fixed-width
integer arm of the switch passes its width check and falls through with
`RANGE`. -/
theorem switch_check_int_zero (v : String) (h : strtoimax v = 0) :
    switch_check yang_type.INT_8 v = switch_out.fall other_check.RANGE ∧
    switch_check yang_type.INT_16 v = switch_out.fall other_check.RANGE ∧
    switch_check yang_type.INT_32 v = switch_out.fall other_check.RANGE ∧
    switch_check yang_type.UINT_8 v = switch_out.fall other_check.RANGE ∧
    switch_check yang_type.UINT_16 v = switch_out.fall other_check.RANGE ∧
    switch_check yang_type.UINT_32 v = switch_out.fall other_check.RANGE := by
  simp only [switch_check]
  rw [h]
  decide

/-- C1: for a structured descriptor of the pattern-checkable (string)
type whose `pattern` field is a non-empty JSON array of pattern strings,
the check scans the listed patterns in order — `pattern_loop` stops at
the first pattern the regex collaborator matches — and then returns
failure (1, mapped to TypeMismatch by the callers) unconditionally after
the scan: the result is `some 1` for every environment, every value and
every non-empty pattern list, in particular even when some listed
pattern matches the value. -/
theorem C1_pattern_list_always_fails (env : Env) (fuel : Nat) (ps : List String)
    (value : String) (h : ps ≠ []) :
    yang_verify_value_type env (fuel + 1)
      (Json.obj [(YANG_LEAF_TYPE, Json.str "string"),
                 ("pattern", Json.arr (ps.map Json.str))]) value = some 1 := by
  simp [yang_verify_value_type, json_object_get_type, json_get_string,
    json_object_object_get_ex, json_obj_lookup, YANG_LEAF_TYPE, json_object_get_string,
    str_to_yang_type, switch_check, pattern_loop_eq_one, h]

/-- Witness for C1, instantiated with the environment whose regex
collaborator matches every pattern: the single listed pattern matches
the value, and the outcome is still failure. -/
theorem C1_pattern_list_always_fails_witness :
    yang_verify_value_type envAll 1
      (Json.obj [(YANG_LEAF_TYPE, Json.str "string"),
                 ("pattern", Json.arr (["^a$"].map Json.str))]) "a" = some 1 :=
  C1_pattern_list_always_fails envAll 0 ["^a$"] "a" (by decide)

/-- C2 as stated is false on the code: in the array
`["true", "true", "x"]` against leaf type `"boolean"`, the early
elements are duplicates and the later element `"x"` fails the type check
(first conjunct), yet `yang_verify_leaf_list` reports `IDENTICAL_KEYS`,
not `INVALID_TYPE` (TypeMismatch) as the claim requires: uniqueness
checking is not deferred until all elements have passed type-checking. -/
theorem C2_counterexample :
    yang_verify_value_type env0 1 (Json.str "boolean") "x" = some 1 ∧
    yang_verify_leaf_list env0 1 (Json.arr [Json.str "true", Json.str "true", Json.str "x"])
        (Json.obj [(YANG_LEAF_TYPE, Json.str "boolean")]) = some error.IDENTICAL_KEYS ∧
    yang_verify_leaf_list env0 1 (Json.arr [Json.str "true", Json.str "true", Json.str "x"])
        (Json.obj [(YANG_LEAF_TYPE, Json.str "boolean")]) ≠ some error.INVALID_TYPE := by
  decide

/-- C2 amended: `yang_verify_leaf_list` interleaves the two checks per
element — immediately after an element passes its type check, it is
compared by string form against all later elements.  Hence whenever the
first element coerces to a string that passes the type check and the
second element has the same string form, the outcome is
`IDENTICAL_KEYS` regardless of the remaining elements, in particular
even when a later element would fail the type check. -/
theorem C2_interleaved_uniqueness (env : Env) (fuel : Nat) (e1 e2 : Json)
    (rest : List Json) (yang type_d : Json) (s : String)
    (hty : json_object_object_get_ex yang YANG_LEAF_TYPE = some type_d)
    (h1 : json_object_get_string e1 = some s)
    (h2 : json_object_get_string e2 = some s)
    (hok : yang_verify_value_type env fuel type_d s = some 0) :
    yang_verify_leaf_list env fuel (Json.arr (e1 :: e2 :: rest)) yang
      = some error.IDENTICAL_KEYS := by
  simp [yang_verify_leaf_list, hty, leaf_list_elems, h1, h2, hok, leaf_list_compare]

/-- Witness for the amended C2 at a concrete duplicate pair. -/
theorem C2_interleaved_uniqueness_witness :
    yang_verify_leaf_list env0 1 (Json.arr [Json.str "a", Json.str "a"])
      (Json.obj [(YANG_LEAF_TYPE, Json.str "string")]) = some error.IDENTICAL_KEYS :=
  C2_interleaved_uniqueness env0 1 (Json.str "a") (Json.str "a") [] _
    (Json.str "string") "a" rfl rfl rfl rfl

/-- C3 as stated is false on the code: with a lookup collaborator that
has no definition for the non-built-in type name `"mytype"`, verifying a
value against that type yields `INVALID_TYPE` (TypeMismatch), not
`YANG_SCHEMA_ERROR` (SchemaMalformed) as the claim states — the
imported-type path reports the generic wrong-format result 1, which the
leaf verifier maps to `INVALID_TYPE`. -/
theorem C3_counterexample :
    yang_verify_leaf env0 2 (Json.str "x")
        (Json.obj [(YANG_LEAF_TYPE, Json.str "mytype")]) = some error.INVALID_TYPE ∧
    yang_verify_leaf env0 2 (Json.str "x")
        (Json.obj [(YANG_LEAF_TYPE, Json.str "mytype")]) ≠ some error.YANG_SCHEMA_ERROR := by
  decide

/-- C3 amended: for every type name classified `UNRECOGNIZED`, when the
external lookup returns no definition, or every returned definition
fails to parse as a schema fragment, leaf verification of any value
against that type yields `INVALID_TYPE` (TypeMismatch). -/
theorem C3_import_failure_yields_type_mismatch (env : Env) (fuel : Nat)
    (tname value : String)
    (hunrec : str_to_yang_type tname = yang_type.UNRECOGNIZED)
    (hparse : ∀ d, env.yang_for_type tname = some d →
      env.json_tokener_parse_verbose d = none) :
    yang_verify_leaf env (fuel + 1) (Json.str value)
      (Json.obj [(YANG_LEAF_TYPE, Json.str tname)]) = some error.INVALID_TYPE := by
  have hb := vvt_bare_str env fuel tname value
  rw [show switch_check (str_to_yang_type tname) value = switch_out.imported by
        rw [hunrec]; rfl] at hb
  simp [yang_verify_leaf, json_object_get_type, json_object_object_get_ex,
    json_obj_lookup, YANG_LEAF_TYPE, json_object_get_string, hb,
    verify_value_from_imported]
  cases hl : env.yang_for_type tname with
  | none => simp
  | some d => simp [hparse d hl]

/-- Witness for the amended C3: a concrete unrecognized type name under
the environment whose lookup finds nothing. -/
theorem C3_import_failure_yields_type_mismatch_witness :
    yang_verify_leaf env0 1 (Json.str "x")
      (Json.obj [(YANG_LEAF_TYPE, Json.str "sometype")]) = some error.INVALID_TYPE :=
  C3_import_failure_yields_type_mismatch env0 0 "sometype" "x" rfl
    (fun _d hd => nomatch hd)

/-- C4: the claim (and the spec) says the negative value string `"-1"`
must be rejected against type `uint64`; the code accepts it.  The parsed
value is stored in an `unsigned long`, so the arm's two comparisons
(`integer < 0`, `integer > 18446744073709551615`) are both vacuous and
the verification returns Ok. -/
theorem C4_uint64_accepts_negative :
    yang_verify_leaf env0 1 (Json.str "-1")
      (Json.obj [(YANG_LEAF_TYPE, Json.str "uint64")]) = some error.RE_OK := by
  decide

/-- C5: leaf-list uniqueness is enforced on the coerced string forms:
`["a", "b", "a"]` against leaf type `"string"` yields `IDENTICAL_KEYS`,
`["a", "b", "c"]` yields `RE_OK`, and the JSON number `1` together with
the JSON string `"1"` — equal once coerced to strings — yields
`IDENTICAL_KEYS`, for every environment. -/
theorem C5_leaf_list_uniqueness (env : Env) :
    yang_verify_leaf_list env 1 (Json.arr [Json.str "a", Json.str "b", Json.str "a"])
        (Json.obj [(YANG_LEAF_TYPE, Json.str "string")]) = some error.IDENTICAL_KEYS ∧
    yang_verify_leaf_list env 1 (Json.arr [Json.str "a", Json.str "b", Json.str "c"])
        (Json.obj [(YANG_LEAF_TYPE, Json.str "string")]) = some error.RE_OK ∧
    yang_verify_leaf_list env 1 (Json.arr [Json.int 1, Json.str "1"])
        (Json.obj [(YANG_LEAF_TYPE, Json.str "string")]) = some error.IDENTICAL_KEYS :=
  ⟨rfl, rfl, rfl⟩

/-- C6: the claim (and the spec) says the boundary+1 value
`"2147483648"` against type `int32` must be `TypeMismatch`; the code
accepts it.  The parsed 64-bit value is narrowed into an `int` variable,
which wraps to `-2147483648`, and the arm's comparison against the exact
`int32` bounds is vacuous on an `int`, so verification returns Ok. -/
theorem C6_int32_accepts_boundary_plus_one :
    yang_verify_leaf env0 1 (Json.str "2147483648")
      (Json.obj [(YANG_LEAF_TYPE, Json.str "int32")]) = some error.RE_OK := by
  decide

/-- C7: for every range-checkable (integer-family) type with a
structured descriptor carrying both bounds, a value whose base-10 parse
falls outside `[from, to]` yields failure 1 (TypeMismatch); a descriptor
missing either bound applies no refinement and coincides with the bare
fixed-width check; and on type `int32` with `from "10"`, `to "20"` the
value `"15"` verifies while `"25"` fails. -/
theorem C7_range_refinement :
    (∀ (env : Env) (fuel : Nat) (t fs ts v : String),
        range_checkable (str_to_yang_type t) = true →
        (strtol v < strtol fs ∨ strtol v > strtol ts) →
        yang_verify_value_type env (fuel + 1)
          (Json.obj [(YANG_LEAF_TYPE, Json.str t), ("from", Json.str fs),
                     ("to", Json.str ts)]) v = some 1) ∧
    (∀ (env : Env) (fuel : Nat) (t fs v : String),
        range_checkable (str_to_yang_type t) = true →
        yang_verify_value_type env (fuel + 1)
            (Json.obj [(YANG_LEAF_TYPE, Json.str t), ("from", Json.str fs)]) v
          = yang_verify_value_type env (fuel + 1) (Json.str t) v) ∧
    (∀ (env : Env) (fuel : Nat) (t ts v : String),
        range_checkable (str_to_yang_type t) = true →
        yang_verify_value_type env (fuel + 1)
            (Json.obj [(YANG_LEAF_TYPE, Json.str t), ("to", Json.str ts)]) v
          = yang_verify_value_type env (fuel + 1) (Json.str t) v) ∧
    (∀ env : Env,
        yang_verify_value_type env 1
          (Json.obj [(YANG_LEAF_TYPE, Json.str "int32"), ("from", Json.str "10"),
                     ("to", Json.str "20")]) "15" = some 0 ∧
        yang_verify_value_type env 1
          (Json.obj [(YANG_LEAF_TYPE, Json.str "int32"), ("from", Json.str "10"),
                     ("to", Json.str "20")]) "25" = some 1) := by
  refine ⟨?_, ?_, ?_, fun env => ⟨rfl, rfl⟩⟩
  · intro env fuel t fs ts v hrc hout
    rcases switch_check_of_range_checkable _ v hrc with hc | hc
    · exact vvt_range_descriptor_ret1 env fuel t fs ts v hc
    · rw [vvt_range_descriptor env fuel t fs ts v hc, if_pos hout]
  · intro env fuel t fs v hrc
    exact vvt_from_only env fuel t fs v hrc
  · intro env fuel t ts v hrc
    exact vvt_to_only env fuel t ts v hrc

/-- Witness for C7 at concrete inputs: an out-of-range value fails, and
single-bound descriptors coincide with the bare type. -/
theorem C7_range_refinement_witness :
    yang_verify_value_type env0 1
      (Json.obj [(YANG_LEAF_TYPE, Json.str "int8"), ("from", Json.str "10"),
                 ("to", Json.str "20")]) "25" = some 1 ∧
    yang_verify_value_type env0 1
        (Json.obj [(YANG_LEAF_TYPE, Json.str "int8"), ("from", Json.str "10")]) "7"
      = yang_verify_value_type env0 1 (Json.str "int8") "7" ∧
    yang_verify_value_type env0 1
        (Json.obj [(YANG_LEAF_TYPE, Json.str "int8"), ("to", Json.str "20")]) "7"
      = yang_verify_value_type env0 1 (Json.str "int8") "7" :=
  ⟨C7_range_refinement.1 env0 0 "int8" "10" "20" "25" (by decide) (by decide),
   C7_range_refinement.2.1 env0 0 "int8" "10" "7" (by decide),
   C7_range_refinement.2.2.1 env0 0 "int8" "20" "7" (by decide)⟩

/-- C8 as stated is false on the code: a node with no kind field at all
(shown by the first conjunct) but with `mandatory: true` makes
`yang_mandatory` return 1, although the claim allows a true result only
when the declared kind denotes a leaf or leaf-list. -/
theorem C8_counterexample :
    json_get_string (Json.obj [(YANG_MANDATORY, Json.bool true)]) YANG_TYPE = none ∧
    yang_mandatory (Json.obj [(YANG_MANDATORY, Json.bool true)]) = 1 := by
  decide

/-- C8 amended: `yang_mandatory` returns 1 exactly when the kind field
is absent or its string form denotes a leaf or leaf-list, and the
`mandatory` field is present and reads as boolean true.  In particular
container/list-kind nodes return 0 regardless of the mandatory field,
and absent or malformed mandatory fields default to 0. -/
theorem C8_mandatory_characterization (yang : Json) :
    yang_mandatory yang = 1 ↔
      ((json_get_string yang YANG_TYPE = none ∨
        ∃ s, json_get_string yang YANG_TYPE = some s ∧ yang_is_leaf s = true) ∧
       ∃ m, json_object_object_get_ex yang YANG_MANDATORY = some m ∧
         json_object_get_boolean m = true) := by
  simp only [yang_mandatory]
  cases hts : json_get_string yang YANG_TYPE with
  | none =>
      cases hm : json_object_object_get_ex yang YANG_MANDATORY with
      | none => simp [hm]
      | some m => cases hb : json_object_get_boolean m <;> simp [hm, hb]
  | some s =>
      cases hleaf : yang_is_leaf s with
      | false => simp [hleaf]
      | true =>
          cases hm : json_object_object_get_ex yang YANG_MANDATORY with
          | none => simp [hm, hleaf]
          | some m => cases hb : json_object_get_boolean m <;> simp [hm, hb, hleaf]

/-- Witness for the amended C8: a leaf-kind node with `mandatory: true`
is reported mandatory. -/
theorem C8_mandatory_characterization_witness :
    yang_mandatory (Json.obj [(YANG_TYPE, Json.str "leaf"),
      (YANG_MANDATORY, Json.bool true)]) = 1 :=
  (C8_mandatory_characterization _).mpr
    ⟨Or.inr ⟨"leaf", rfl, rfl⟩, Json.bool true, rfl, rfl⟩

/-- C9: any value string whose permissive base-10 parse yields 0 (such
as `"abc"`, which has no numeric prefix) is accepted against each of the
fixed-width integer types `int8/16/32`, `uint8/16/32` by the bare
fixed-width check, and the same permissive parse of the value feeds the
`[from, to]` range-refinement comparison: with bounds `-5..5` the
non-numeric value passes, with bounds `1..5` its parsed 0 fails. -/
theorem C9_nonnumeric_parses_zero (env : Env) (fuel : Nat) (v : String)
    (h : strtoimax v = 0) :
    (yang_verify_value_type env (fuel + 1) (Json.str "int8") v = some 0 ∧
     yang_verify_value_type env (fuel + 1) (Json.str "int16") v = some 0 ∧
     yang_verify_value_type env (fuel + 1) (Json.str "int32") v = some 0 ∧
     yang_verify_value_type env (fuel + 1) (Json.str "uint8") v = some 0 ∧
     yang_verify_value_type env (fuel + 1) (Json.str "uint16") v = some 0 ∧
     yang_verify_value_type env (fuel + 1) (Json.str "uint32") v = some 0) ∧
    yang_verify_value_type env (fuel + 1)
      (Json.obj [(YANG_LEAF_TYPE, Json.str "int8"), ("from", Json.str "-5"),
                 ("to", Json.str "5")]) v = some 0 ∧
    yang_verify_value_type env (fuel + 1)
      (Json.obj [(YANG_LEAF_TYPE, Json.str "int8"), ("from", Json.str "1"),
                 ("to", Json.str "5")]) v = some 1 := by
  obtain ⟨s8, s16, s32, u8, u16, u32⟩ := switch_check_int_zero v h
  refine ⟨⟨?_, ?_, ?_, ?_, ?_, ?_⟩, ?_, ?_⟩
  · rw [vvt_bare_str, show str_to_yang_type "int8" = yang_type.INT_8 from rfl, s8]
  · rw [vvt_bare_str, show str_to_yang_type "int16" = yang_type.INT_16 from rfl, s16]
  · rw [vvt_bare_str, show str_to_yang_type "int32" = yang_type.INT_32 from rfl, s32]
  · rw [vvt_bare_str, show str_to_yang_type "uint8" = yang_type.UINT_8 from rfl, u8]
  · rw [vvt_bare_str, show str_to_yang_type "uint16" = yang_type.UINT_16 from rfl, u16]
  · rw [vvt_bare_str, show str_to_yang_type "uint32" = yang_type.UINT_32 from rfl, u32]
  · rw [vvt_range_descriptor env fuel "int8" "-5" "5" v s8,
      show strtol v = 0 from h]
    decide
  · rw [vvt_range_descriptor env fuel "int8" "1" "5" v s8,
      show strtol v = 0 from h]
    decide

/-- Witness for C9: `"abc"` parses to 0 and is accepted against `int8`. -/
theorem C9_nonnumeric_parses_zero_witness :
    strtoimax "abc" = 0 ∧
    yang_verify_value_type env0 1 (Json.str "int8") "abc" = some 0 :=
  ⟨by decide, (C9_nonnumeric_parses_zero env0 0 "abc" (by decide)).1.1⟩

/-- C10: leaf verification factors through the coerced string form — two
non-object, non-array values with the same string form verify
identically under every schema, so the coarse compatibility check
`yang_verify_json_type` is never consulted: it would reject a JSON
string against a boolean-typed node (second conjunct), yet the JSON
string `"true"` verifies as Ok against declared type `"boolean"` (third
conjunct). -/
theorem C10_string_form_decides :
    (∀ (env : Env) (fuel : Nat) (j1 j2 yang : Json),
        json_object_get_string j1 = json_object_get_string j2 →
        json_object_get_type j1 ≠ json_type.json_type_object →
        json_object_get_type j1 ≠ json_type.json_type_array →
        json_object_get_type j2 ≠ json_type.json_type_object →
        json_object_get_type j2 ≠ json_type.json_type_array →
        yang_verify_leaf env fuel j1 yang = yang_verify_leaf env fuel j2 yang) ∧
    yang_verify_json_type yang_type.BOOLEAN json_type.json_type_string = 1 ∧
    (∀ env : Env,
        yang_verify_leaf env 1 (Json.str "true")
          (Json.obj [(YANG_LEAF_TYPE, Json.str "boolean")]) = some error.RE_OK) := by
  refine ⟨?_, rfl, fun env => rfl⟩
  intro env fuel j1 j2 yang hs h1o h1a h2o h2a
  simp only [yang_verify_leaf]
  rw [if_neg (by tauto), if_neg (by tauto), hs]

/-- Witness for C10: the JSON string `"true"` and the JSON boolean
`true` share the string form `"true"` and verify identically. -/
theorem C10_string_form_decides_witness :
    yang_verify_leaf env0 1 (Json.str "true")
        (Json.obj [(YANG_LEAF_TYPE, Json.str "boolean")])
      = yang_verify_leaf env0 1 (Json.bool true)
          (Json.obj [(YANG_LEAF_TYPE, Json.str "boolean")]) :=
  C10_string_form_decides.1 env0 1 (Json.str "true") (Json.bool true) _ rfl
    (by decide) (by decide) (by decide) (by decide)

end YangVerify
